import Mathlib

/-!
Shallow embedding of the budget-alert / monthly-aggregation core of
`src/server.py` (a Flask + SQLAlchemy personal finance tracker).

Modelling conventions:
* Money amounts (`db.Float` columns, Python floats) are modelled as exact
  rationals `ℚ`; the arithmetic expressions are translated term-for-term
  from the source.
* The database session is a `State` record of entity lists; SQLAlchemy
  queries (`filter_by(...).first()`, `func.sum`, …) become `List.find?`,
  `List.filter`/fold, … over those lists.
* The ambient clock (`datetime.datetime.today()`) is passed in explicitly
  as a `Date` value (it is read once at the top of `check_budget_alerts`).
* `send_email_notification` swallows every exception; delivery success is
  an external condition modelled by a boolean `sinkOk`, and a successful
  delivery is recorded in the `sent` log of the state.
* A place where the Python code would raise an uncaught exception
  (attribute access on a `None` returned by `Query.get`) is modelled by
  returning `none` from the whole call.
-/

namespace FinanceTracker

/-- Calendar date of an `Expense` (`Expense.date`, a `db.Date` column);
`extract('month', …)` / `extract('year', …)` read the fields. -/
structure Date where
  year : Nat
  month : Nat
  day : Nat
deriving DecidableEq

/-- `User` model (`server.py` lines 19-32): id, username, email,
`notifications_enabled` flag (password hash omitted: no claim touches it). -/
structure User where
  id : Nat
  username : String
  email : String
  notifications_enabled : Bool
deriving DecidableEq

/-- `Category` model (lines 34-38). -/
structure Category where
  id : Nat
  name : String
deriving DecidableEq

/-- `Expense` model (lines 40-47); `amount` is a `db.Float` column modelled
as an exact rational. -/
structure Expense where
  id : Nat
  amount : ℚ
  description : String
  date : Date
  user_id : Nat
  category_id : Nat
  shared_with : String
deriving DecidableEq

/-- `Budget` model (lines 49-56); note the column default
`alert_threshold = 100.0`, which is never exercised because both request
handlers always pass the field explicitly. -/
structure Budget where
  id : Nat
  amount : ℚ
  month : Nat
  year : Nat
  user_id : Nat
  category_id : Nat
  alert_threshold : ℚ
deriving DecidableEq

/-- `Alert` model (lines 58-64); `created_at` is an abstract timestamp. -/
structure Alert where
  id : Nat
  user_id : Nat
  category_id : Nat
  message : String
  created_at : Nat
  is_read : Bool
deriving DecidableEq

/-- The database state: one list per table, fresh primary keys, plus the
log of notifications actually delivered by the external sink. -/
structure State where
  users : List User
  categories : List Category
  expenses : List Expense
  budgets : List Budget
  alerts : List Alert
  nextAlertId : Nat
  nextBudgetId : Nat
  sent : List (String × String)
deriving DecidableEq

/-- `Budget.query.filter_by(user_id=…, category_id=…, month=…, year=…).first()`. -/
def findBudget (uid cid month year : Nat) (s : State) : Option Budget :=
  s.budgets.find? fun b =>
    b.user_id == uid && b.category_id == cid && b.month == month && b.year == year

/-- `Alert.query.filter_by(user_id=…, category_id=…, is_read=False).first()`. -/
def findUnreadAlert (uid cid : Nat) (s : State) : Option Alert :=
  s.alerts.find? fun a => a.user_id == uid && a.category_id == cid && a.is_read == false

/-- `User.query.get(user_id)`. -/
def findUser (uid : Nat) (s : State) : Option User :=
  s.users.find? fun u => u.id == uid

/-- `Category.query.get(category_id)`. -/
def findCategory (cid : Nat) (s : State) : Option Category :=
  s.categories.find? fun c => c.id == cid

/-- Filter of the aggregation query (lines 92-97): same user, same
category, and the expense date falls in the given calendar month/year. -/
def expenseMatches (uid cid month year : Nat) (e : Expense) : Bool :=
  e.user_id == uid && e.category_id == cid &&
    e.date.month == month && e.date.year == year

/-- SQL `SUM` returns `NULL` on an empty row set, hence the `Option`. -/
def sqlSum (l : List ℚ) : Option ℚ :=
  match l with
  | [] => none
  | _ => some (l.foldl (· + ·) 0)

/-- `db.session.query(func.sum(Expense.amount)).filter(…).scalar() or 0`
(lines 92-97): the monthly per-category total, with `or 0` turning the
`NULL` of an empty sum into `0`. -/
def monthlyTotal (uid cid month year : Nat) (s : State) : ℚ :=
  (sqlSum ((s.expenses.filter (expenseMatches uid cid month year)).map Expense.amount)).getD 0

/-- The specification side of claim C4, written from the spec words: the
sum of `e.amount` over exactly the matching expenses. -/
def monthlyTotalSpec (uid cid month year : Nat) (s : State) : ℚ :=
  ((s.expenses.filter (expenseMatches uid cid month year)).map Expense.amount).sum

/-- A string of `n` zero digits (helper for fixed-point formatting). -/
def zeros : Nat → String
  | 0 => ""
  | n + 1 => zeros n ++ "0"

/-- Left-pad a digit string with zeros to length `d`. -/
def padLeftZeros (d : Nat) (s : String) : String :=
  zeros (d - s.length) ++ s

/-- Python `f"{q:.df}"` fixed-point formatting, modelled over exact
rationals (ties round half-up here; Python rounds the underlying double
half-even, a difference visible only on exact ties). -/
def formatFixed (d : Nat) (q : ℚ) : String :=
  let scaled : ℤ := round (q * (10 : ℚ) ^ d)
  let sign := if scaled < 0 then "-" else ""
  let n := scaled.natAbs
  if d = 0 then sign ++ toString n
  else sign ++ toString (n / 10 ^ d) ++ "." ++ padLeftZeros d (toString (n % 10 ^ d))

/-- The EXCEEDED message of lines 111-112:
`f"ALERT: You've exceeded your budget for {category.name}! (₹{total:.2f} / ₹{budget:.2f})"`. -/
def exceededMessage (name : String) (total amount : ℚ) : String :=
  "ALERT: You\x27ve exceeded your budget for " ++ name ++ "! (₹" ++
    formatFixed 2 total ++ " / ₹" ++ formatFixed 2 amount ++ ")"

/-- The WARNING message of lines 114-115:
`f"WARNING: You've used {percent:.1f}% of your {category.name} budget (₹{total:.2f} / ₹{budget:.2f})"`. -/
def warningMessage (name : String) (percent total amount : ℚ) : String :=
  "WARNING: You\x27ve used " ++ formatFixed 1 percent ++ "% of your " ++ name ++
    " budget (₹" ++ formatFixed 2 total ++ " / ₹" ++ formatFixed 2 amount ++ ")"

/-- `send_email_notification` (lines 127-148): the whole body is wrapped in
`try/except`, so a failing sink changes nothing and raises nothing; a
successful delivery is recorded in the `sent` log. -/
def send_email_notification (sinkOk : Bool) (email message : String) (s : State) : State :=
  if sinkOk then { s with sent := s.sent ++ [(email, message)] } else s

/-- One iteration of the `for category in categories` loop of
`check_budget_alerts` (lines 82-125).  Result `none` models the uncaught
`AttributeError` raised when `User.query.get(user_id)` returns `None`;
otherwise the result carries the Python return value and the new state. -/
def evalCategory (sinkOk : Bool) (today : Date) (uid : Nat) (c : Category) (s : State) :
    Option (Option Alert × State) :=
  match findBudget uid c.id today.month today.year s with
  | none => some (none, s)
  | some budget =>
    let total_expenses := monthlyTotal uid c.id today.month today.year s
    if budget.amount > 0 then
      let budget_used_percent := total_expenses / budget.amount * 100
      if budget_used_percent ≥ budget.alert_threshold then
        match findUnreadAlert uid c.id s with
        | some _ => some (none, s)
        | none =>
          let message :=
            if budget_used_percent ≥ 100 then
              exceededMessage c.name total_expenses budget.amount
            else
              warningMessage c.name budget_used_percent total_expenses budget.amount
          let alert : Alert :=
            { id := s.nextAlertId, user_id := uid, category_id := c.id,
              message := message, created_at := 0, is_read := false }
          let s1 := { s with alerts := s.alerts ++ [alert], nextAlertId := s.nextAlertId + 1 }
          match findUser uid s1 with
          | none => none
          | some user =>
            some (some alert,
              if user.notifications_enabled then
                send_email_notification sinkOk user.email message s1
              else s1)
      else some (none, s)
    else some (none, s)

/-- The category loop of `check_budget_alerts`: a created alert is returned
at once (`return alert` on line 125 leaves the whole function). -/
def checkCategories (sinkOk : Bool) (today : Date) (uid : Nat) :
    List Category → State → Option (Option Alert × State)
  | [], s => some (none, s)
  | c :: rest, s =>
    match evalCategory sinkOk today uid c s with
    | none => none
    | some (some a, s1) => some (some a, s1)
    | some (none, s1) => checkCategories sinkOk today uid rest s1

/-- `check_budget_alerts(user_id, category_id=None)` (lines 75-125).  With
a concrete `category_id` the loop runs over that single category (a missing
category makes Python dereference `None`, modelled as `none`); without one
it runs over every category in the store. -/
def check_budget_alerts (sinkOk : Bool) (today : Date) (uid : Nat)
    (category_id : Option Nat) (s : State) : Option (Option Alert × State) :=
  match category_id with
  | some cid =>
    match findCategory cid s with
    | none => none
    | some c => checkCategories sinkOk today uid [c] s
  | none => checkCategories sinkOk today uid s.categories s

/-- Does `b` occupy the (user, category, month, year) slot? -/
def budgetKeyMatches (uid cid month year : Nat) (b : Budget) : Bool :=
  b.user_id == uid && b.category_id == cid && b.month == month && b.year == year

/-- Replace the first element satisfying `p` (SQLAlchemy mutates the object
returned by `.first()` in place). -/
def updateFirst (p : α → Bool) (f : α → α) : List α → List α
  | [] => []
  | x :: xs => if p x then f x :: xs else x :: updateFirst p f xs

/-- The budget-submission body shared by the `/budgets` POST handler
(lines 325-355) and `/api/budgets` POST (lines 560-584): look up the
(user, category, month, year) row; update `amount` and `alert_threshold`
in place when it exists, otherwise insert a new row.  `alert_threshold`
is `none` when the request did not carry the field, in which case both
handlers substitute `90` (`request.form.get('alert_threshold', 90)` /
`data.get('alert_threshold', 90)`). -/
def upsertBudget (uid cid : Nat) (amount : ℚ) (month year : Nat)
    (alert_threshold : Option ℚ) (s : State) : State :=
  let t := alert_threshold.getD 90
  match s.budgets.find? (budgetKeyMatches uid cid month year) with
  | some _ =>
    let updated :=
      updateFirst (budgetKeyMatches uid cid month year)
        (fun b => { b with amount := amount, alert_threshold := t }) s.budgets
    { s with budgets := updated }
  | none =>
    let newRow : Budget :=
      { id := s.nextBudgetId, amount := amount, month := month, year := year,
        user_id := uid, category_id := cid, alert_threshold := t }
    { s with budgets := s.budgets ++ [newRow], nextBudgetId := s.nextBudgetId + 1 }

/-- Per-category row of the monthly report view model. -/
structure CategoryReport where
  name : String
  spent : ℚ
  budget : ℚ
  remaining : ℚ
  percent : ℚ
deriving DecidableEq

/-- One entry of `category_spending` in the `/reports` view (lines 388-411)
and `category_data` in `/api/reports` (lines 636-659): both compute
`remaining` as `budget_amount - total if budget_amount > 0 else 0` and
`percent` as `total / budget_amount * 100 if budget_amount > 0 else 0`. -/
def categoryReportEntry (uid month year : Nat) (c : Category) (s : State) : CategoryReport :=
  let total := monthlyTotal uid c.id month year s
  let budget_amount :=
    match findBudget uid c.id month year s with
    | some b => b.amount
    | none => 0
  { name := c.name
    spent := total
    budget := budget_amount
    remaining := if budget_amount > 0 then budget_amount - total else 0
    percent := if budget_amount > 0 then total / budget_amount * 100 else 0 }

/-- The spec-side `remaining` of §4.3: `max(budget - spent, 0) when budget > 0 else 0`. -/
def remainingSpec (budget spent : ℚ) : ℚ :=
  if budget > 0 then max (budget - spent) 0 else 0

/-- At most one `Budget` row per (user, category, month, year): any two
distinct positions in the table differ in their key. -/
def BudgetsUnique (s : State) : Prop :=
  s.budgets.Pairwise fun a b =>
    (a.user_id == b.user_id && a.category_id == b.category_id &&
      a.month == b.month && a.year == b.year) = false

/-- A budget-submission request, as consumed by `upsertBudget`. -/
structure Submission where
  uid : Nat
  cid : Nat
  amount : ℚ
  month : Nat
  year : Nat
  alert_threshold : Option ℚ
deriving DecidableEq

/-- Apply a sequence of budget submissions in order. -/
def applySubmissions (subs : List Submission) (s : State) : State :=
  subs.foldl (fun st sub =>
    upsertBudget sub.uid sub.cid sub.amount sub.month sub.year sub.alert_threshold st) s

/-- The alert record built in the creating branch of `check_budget_alerts`
(lines 110-117), with the message chosen by the `percent >= 100` test. -/
def newAlert (uid : Nat) (c : Category) (b : Budget) (today : Date) (s : State) : Alert :=
  { id := s.nextAlertId, user_id := uid, category_id := c.id,
    message :=
      if monthlyTotal uid c.id today.month today.year s / b.amount * 100 ≥ 100 then
        exceededMessage c.name (monthlyTotal uid c.id today.month today.year s) b.amount
      else
        warningMessage c.name (monthlyTotal uid c.id today.month today.year s / b.amount * 100)
          (monthlyTotal uid c.id today.month today.year s) b.amount,
    created_at := 0, is_read := false }

/-- The state after the creating branch: alert committed, then the
notification attempted when the user opted in. -/
def afterCreate (sinkOk : Bool) (uid : Nat) (c : Category) (b : Budget)
    (today : Date) (s : State) (u : User) : State :=
  let a := newAlert uid c b today s
  let s1 := { s with alerts := s.alerts ++ [a], nextAlertId := s.nextAlertId + 1 }
  if u.notifications_enabled then send_email_notification sinkOk u.email a.message s1 else s1

section Lemmas

variable {sinkOk : Bool} {today : Date} {uid : Nat} {c : Category} {s : State}

theorem findUser_alerts_congr (uid : Nat) (s : State) (al : List Alert) (n : Nat) :
    findUser uid { s with alerts := al, nextAlertId := n } = findUser uid s := rfl

theorem evalCategory_of_noBudget
    (hb : findBudget uid c.id today.month today.year s = none) :
    evalCategory sinkOk today uid c s = some (none, s) := by
  unfold evalCategory
  rw [hb]

theorem evalCategory_of_nonpos {b : Budget}
    (hb : findBudget uid c.id today.month today.year s = some b)
    (h0 : ¬ b.amount > 0) :
    evalCategory sinkOk today uid c s = some (none, s) := by
  unfold evalCategory
  rw [hb]
  simp only [if_neg h0]

theorem evalCategory_of_below {b : Budget}
    (hb : findBudget uid c.id today.month today.year s = some b)
    (h0 : b.amount > 0)
    (hlt : monthlyTotal uid c.id today.month today.year s / b.amount * 100 <
      b.alert_threshold) :
    evalCategory sinkOk today uid c s = some (none, s) := by
  unfold evalCategory
  rw [hb]
  simp only [if_pos h0, if_neg (not_le.mpr hlt)]

theorem evalCategory_of_unread {a : Alert}
    (hal : findUnreadAlert uid c.id s = some a) :
    evalCategory sinkOk today uid c s = some (none, s) := by
  unfold evalCategory
  cases hb : findBudget uid c.id today.month today.year s with
  | none => rfl
  | some b =>
    by_cases h0 : b.amount > 0
    · by_cases hth : monthlyTotal uid c.id today.month today.year s / b.amount * 100 ≥
        b.alert_threshold
      · simp only [if_pos h0, if_pos hth, hal]
      · simp only [if_pos h0, if_neg hth]
    · simp only [if_neg h0]

theorem evalCategory_creates {b : Budget} {u : User}
    (hb : findBudget uid c.id today.month today.year s = some b)
    (h0 : b.amount > 0)
    (hth : monthlyTotal uid c.id today.month today.year s / b.amount * 100 ≥
      b.alert_threshold)
    (hal : findUnreadAlert uid c.id s = none)
    (hu : findUser uid s = some u) :
    evalCategory sinkOk today uid c s =
      some (some (newAlert uid c b today s), afterCreate sinkOk uid c b today s u) := by
  unfold evalCategory
  rw [hb]
  simp only [if_pos h0, if_pos hth, hal]
  rw [findUser_alerts_congr, hu]
  rfl

theorem send_email_frame (sinkOk : Bool) (email message : String) (s : State) :
    (send_email_notification sinkOk email message s).users = s.users ∧
    (send_email_notification sinkOk email message s).categories = s.categories ∧
    (send_email_notification sinkOk email message s).expenses = s.expenses ∧
    (send_email_notification sinkOk email message s).budgets = s.budgets ∧
    (send_email_notification sinkOk email message s).alerts = s.alerts := by
  cases sinkOk <;> simp [send_email_notification]

/-- Everything `evalCategory` can do to the state: the four entity tables
other than alerts are untouched, and either nothing happens or exactly one
fresh unread alert for this (user, category) is appended. -/
theorem evalCategory_frame {r : Option Alert} {s' : State}
    (h : evalCategory sinkOk today uid c s = some (r, s')) :
    s'.users = s.users ∧ s'.categories = s.categories ∧
    s'.expenses = s.expenses ∧ s'.budgets = s.budgets ∧
    ((r = none ∧ s' = s) ∨
      ∃ a, r = some a ∧ s'.alerts = s.alerts ++ [a] ∧
        a.is_read = false ∧ a.user_id = uid ∧ a.category_id = c.id) := by
  cases hb : findBudget uid c.id today.month today.year s with
  | none =>
    rw [evalCategory_of_noBudget hb] at h
    obtain ⟨rfl, rfl⟩ : r = none ∧ s' = s := by
      constructor <;> { injection h with h'; cases h'; rfl }
    exact ⟨rfl, rfl, rfl, rfl, Or.inl ⟨rfl, rfl⟩⟩
  | some b =>
    by_cases h0 : b.amount > 0
    · by_cases hth : monthlyTotal uid c.id today.month today.year s / b.amount * 100 ≥
        b.alert_threshold
      · cases hal : findUnreadAlert uid c.id s with
        | some a =>
          rw [evalCategory_of_unread hal] at h
          obtain ⟨rfl, rfl⟩ : r = none ∧ s' = s := by
            constructor <;> { injection h with h'; cases h'; rfl }
          exact ⟨rfl, rfl, rfl, rfl, Or.inl ⟨rfl, rfl⟩⟩
        | none =>
          cases hu : findUser uid s with
          | none =>
            exfalso
            unfold evalCategory at h
            rw [hb] at h
            simp only [if_pos h0, if_pos hth, hal] at h
            rw [findUser_alerts_congr, hu] at h
            exact Option.noConfusion h
          | some u =>
            rw [evalCategory_creates hb h0 hth hal hu] at h
            obtain ⟨rfl, rfl⟩ : r = some (newAlert uid c b today s) ∧
                s' = afterCreate sinkOk uid c b today s u := by
              constructor <;> { injection h with h'; cases h'; rfl }
            refine ⟨?_, ?_, ?_, ?_, Or.inr ⟨newAlert uid c b today s, rfl, ?_, rfl, rfl, rfl⟩⟩ <;>
              · unfold afterCreate
                cases hn : u.notifications_enabled <;> cases sinkOk <;>
                  simp [send_email_notification]
      · rw [evalCategory_of_below hb h0 (not_le.mp hth)] at h
        obtain ⟨rfl, rfl⟩ : r = none ∧ s' = s := by
          constructor <;> { injection h with h'; cases h'; rfl }
        exact ⟨rfl, rfl, rfl, rfl, Or.inl ⟨rfl, rfl⟩⟩
    · rw [evalCategory_of_nonpos hb h0] at h
      obtain ⟨rfl, rfl⟩ : r = none ∧ s' = s := by
        constructor <;> { injection h with h'; cases h'; rfl }
      exact ⟨rfl, rfl, rfl, rfl, Or.inl ⟨rfl, rfl⟩⟩

/-- Frame property of the whole category loop. -/
theorem checkCategories_frame {cats : List Category} {r : Option Alert} {s' : State}
    (h : checkCategories sinkOk today uid cats s = some (r, s')) :
    s'.users = s.users ∧ s'.categories = s.categories ∧
    s'.expenses = s.expenses ∧ s'.budgets = s.budgets ∧
    ((r = none ∧ s' = s) ∨
      ∃ a, r = some a ∧ s'.alerts = s.alerts ++ [a] ∧
        a.is_read = false ∧ a.user_id = uid ∧ ∃ c ∈ cats, a.category_id = c.id) := by
  induction cats generalizing s with
  | nil =>
    obtain ⟨rfl, rfl⟩ : r = none ∧ s' = s := by
      constructor <;> { injection h with h'; cases h'; rfl }
    exact ⟨rfl, rfl, rfl, rfl, Or.inl ⟨rfl, rfl⟩⟩
  | cons c0 rest ih =>
    unfold checkCategories at h
    cases he : evalCategory sinkOk today uid c0 s with
    | none => rw [he] at h; exact Option.noConfusion h
    | some p =>
      obtain ⟨r0, s0⟩ := p
      rw [he] at h
      obtain ⟨hus, hcs, hes, hbs, hdisj⟩ := evalCategory_frame he
      cases r0 with
      | some a0 =>
        obtain ⟨rfl, rfl⟩ : r = some a0 ∧ s' = s0 := by
          constructor <;> { injection h with h'; cases h'; rfl }
        rcases hdisj with ⟨hne, _⟩ | ⟨a, ha, hal, hread, huid, hcid⟩
        · exact Option.noConfusion hne
        · obtain rfl : a0 = a := by injection ha
          exact ⟨hus, hcs, hes, hbs,
            Or.inr ⟨a0, rfl, hal, hread, huid, c0, List.mem_cons_self c0 rest, hcid⟩⟩
      | none =>
        rcases hdisj with ⟨_, rfl⟩ | ⟨a, ha, _⟩
        · obtain ⟨hus', hcs', hes', hbs', hdisj'⟩ := ih h
          refine ⟨hus', hcs', hes', hbs', ?_⟩
          rcases hdisj' with hl | ⟨a, ha, hal, hread, huid, c1, hc1, hcid⟩
          · exact Or.inl hl
          · exact Or.inr ⟨a, ha, hal, hread, huid, c1, List.mem_cons_of_mem c0 hc1, hcid⟩
        · exact Option.noConfusion ha

end Lemmas

/-! Concrete fixtures used by the witness theorems. -/

/-- A user with notifications enabled. -/
def wUser : User := { id := 1, username := "alice", email := "alice@example.com",
                      notifications_enabled := true }

/-- The seeded Food category. -/
def wFood : Category := { id := 1, name := "Food" }

/-- An evaluation date in June 2024. -/
def wDate : Date := { year := 2024, month := 6, day := 15 }

/-- A June 2024 expense of the given amount for (user 1, category 1). -/
def wExpense (amt : ℚ) : Expense :=
  { id := 1, amount := amt, description := "", date := { year := 2024, month := 6, day := 5 },
    user_id := 1, category_id := 1, shared_with := "" }

/-- A June 2024 budget of the given amount and threshold for (user 1, category 1). -/
def wBudget (amt thr : ℚ) : Budget :=
  { id := 1, amount := amt, month := 6, year := 2024, user_id := 1, category_id := 1,
    alert_threshold := thr }

/-- A one-user, one-category state with the given expense and budget tables. -/
def wState (expenses : List Expense) (budgets : List Budget) : State :=
  { users := [wUser], categories := [wFood], expenses := expenses, budgets := budgets,
    alerts := [], nextAlertId := 1, nextBudgetId := 2, sent := [] }

/-- C4: `monthlyTotal` equals the sum of `Expense.amount` over exactly the
expenses whose user, category and calendar month/year match, and it is `0`
(not an error) when no expense matches. -/
theorem monthlyTotal_is_matching_sum (uid cid month year : Nat) (s : State) :
    monthlyTotal uid cid month year s = monthlyTotalSpec uid cid month year s ∧
    (s.expenses.filter (expenseMatches uid cid month year) = [] →
      monthlyTotal uid cid month year s = 0) := by
  constructor
  · unfold monthlyTotal monthlyTotalSpec sqlSum
    cases hl : (s.expenses.filter (expenseMatches uid cid month year)).map Expense.amount with
    | nil => simp
    | cons x xs =>
      simp only [Option.getD_some]
      rw [List.sum_eq_foldl]
  · intro h
    unfold monthlyTotal sqlSum
    rw [h]
    rfl

/-- Witness for C4 at a state with no matching expenses. -/
theorem monthlyTotal_is_matching_sum_witness :
    monthlyTotal 1 1 6 2024 (wState [] []) = 0 :=
  (monthlyTotal_is_matching_sum 1 1 6 2024 (wState [] [])).2 rfl

/-- C6: a budget row with `amount ≤ 0` makes `check_budget_alerts` skip the
category: it returns `None` and leaves the state untouched, and the division
by `budget.amount` is never reached. -/
theorem evaluate_skips_nonpositive_budget (sinkOk : Bool) (today : Date)
    (uid cid : Nat) (s : State) (c : Category) (b : Budget)
    (hc : findCategory cid s = some c)
    (hb : findBudget uid c.id today.month today.year s = some b)
    (h0 : b.amount ≤ 0) :
    check_budget_alerts sinkOk today uid (some cid) s = some (none, s) := by
  have hstep : check_budget_alerts sinkOk today uid (some cid) s =
      match findCategory cid s with
      | none => none
      | some c => checkCategories sinkOk today uid [c] s := rfl
  rw [hstep, hc]
  unfold checkCategories
  rw [evalCategory_of_nonpos hb (not_lt.mpr h0)]
  rfl

/-- Witness for C6: a zero budget with spend 500 yields no alert. -/
theorem evaluate_skips_nonpositive_budget_witness :
    check_budget_alerts true wDate 1 (some 1) (wState [wExpense 500] [wBudget 0 90]) =
      some (none, wState [wExpense 500] [wBudget 0 90]) :=
  evaluate_skips_nonpositive_budget true wDate 1 1
    (wState [wExpense 500] [wBudget 0 90]) wFood (wBudget 0 90) rfl rfl (by norm_num [wBudget])

/-- C10: a `check_budget_alerts` run (single category or all categories)
never modifies the users, categories, expenses or budgets tables; its only
possible state change is appending exactly one new unread alert, after which
it returns that alert at once. -/
theorem check_budget_alerts_frame (sinkOk : Bool) (today : Date) (uid : Nat)
    (category_id : Option Nat) (s : State) (r : Option Alert) (s' : State)
    (h : check_budget_alerts sinkOk today uid category_id s = some (r, s')) :
    s'.users = s.users ∧ s'.categories = s.categories ∧
    s'.expenses = s.expenses ∧ s'.budgets = s.budgets ∧
    ((r = none ∧ s' = s) ∨
      ∃ a, r = some a ∧ s'.alerts = s.alerts ++ [a] ∧ a.is_read = false) := by
  have weaken :
      ∀ {cats : List Category},
        checkCategories sinkOk today uid cats s = some (r, s') →
        s'.users = s.users ∧ s'.categories = s.categories ∧
        s'.expenses = s.expenses ∧ s'.budgets = s.budgets ∧
        ((r = none ∧ s' = s) ∨
          ∃ a, r = some a ∧ s'.alerts = s.alerts ++ [a] ∧ a.is_read = false) := by
    intro cats hcc
    obtain ⟨h1, h2, h3, h4, hdisj⟩ := checkCategories_frame hcc
    refine ⟨h1, h2, h3, h4, ?_⟩
    rcases hdisj with hl | ⟨a, ha, hal, hread, _, _⟩
    · exact Or.inl hl
    · exact Or.inr ⟨a, ha, hal, hread⟩
  cases category_id with
  | some cid =>
    have hstep : check_budget_alerts sinkOk today uid (some cid) s =
        match findCategory cid s with
        | none => none
        | some c => checkCategories sinkOk today uid [c] s := rfl
    rw [hstep] at h
    cases hc : findCategory cid s with
    | none => rw [hc] at h; exact Option.noConfusion h
    | some c => rw [hc] at h; exact weaken h
  | none => exact weaken h

/-- Witness for C10 on a run over all categories of a concrete state. -/
theorem check_budget_alerts_frame_witness :
    (wState [] []).users = (wState [] []).users ∧
    (wState [] []).categories = (wState [] []).categories ∧
    (wState [] []).expenses = (wState [] []).expenses ∧
    (wState [] []).budgets = (wState [] []).budgets ∧
    (((none : Option Alert) = none ∧ wState [] [] = wState [] []) ∨
      ∃ a, (none : Option Alert) = some a ∧
        (wState [] []).alerts = (wState [] []).alerts ++ [a] ∧ a.is_read = false) :=
  check_budget_alerts_frame true wDate 1 none (wState [] []) none (wState [] []) rfl

/-- C1: with a positive current-period budget, no unread alert in the way
and an existing user, evaluation fires an alert exactly when
`spent / budget.amount * 100 ≥ budget.alert_threshold`, and the fired
alert's message is the EXCEEDED one (amounts to 2 decimal places) when the
percent is ≥ 100 and the WARNING one (percent to 1 decimal place, amounts to
2 decimal places) otherwise. -/
theorem alert_fires_iff_threshold (sinkOk : Bool) (today : Date) (uid : Nat)
    (c : Category) (s : State) (b : Budget) (u : User)
    (hb : findBudget uid c.id today.month today.year s = some b)
    (h0 : b.amount > 0)
    (hal : findUnreadAlert uid c.id s = none)
    (hu : findUser uid s = some u) :
    ((∃ a s', evalCategory sinkOk today uid c s = some (some a, s')) ↔
      monthlyTotal uid c.id today.month today.year s / b.amount * 100 ≥ b.alert_threshold) ∧
    (∀ a s', evalCategory sinkOk today uid c s = some (some a, s') →
      a.message =
        if monthlyTotal uid c.id today.month today.year s / b.amount * 100 ≥ 100 then
          exceededMessage c.name (monthlyTotal uid c.id today.month today.year s) b.amount
        else
          warningMessage c.name
            (monthlyTotal uid c.id today.month today.year s / b.amount * 100)
            (monthlyTotal uid c.id today.month today.year s) b.amount) := by
  constructor
  · constructor
    · rintro ⟨a, s', h⟩
      by_contra hlt
      rw [evalCategory_of_below hb h0 (not_le.mp hlt)] at h
      simp at h
    · intro hth
      exact ⟨_, _, evalCategory_creates hb h0 hth hal hu⟩
  · intro a s' h
    by_cases hth : monthlyTotal uid c.id today.month today.year s / b.amount * 100 ≥
      b.alert_threshold
    · rw [evalCategory_creates hb h0 hth hal hu] at h
      simp only [Option.some.injEq, Prod.mk.injEq] at h
      obtain ⟨h1, _⟩ := h
      rw [← h1]
      rfl
    · rw [evalCategory_of_below hb h0 (not_le.mp hth)] at h
      simp at h

/-- Witness for C1 at the spec's boundary example: budget 100, threshold
90, spent 90 fires an alert. -/
theorem alert_fires_iff_threshold_witness :
    ∃ a s', evalCategory true wDate 1 wFood (wState [wExpense 90] [wBudget 100 90]) =
      some (some a, s') :=
  (alert_fires_iff_threshold true wDate 1 wFood (wState [wExpense 90] [wBudget 100 90])
      (wBudget 100 90) wUser rfl (by norm_num [wBudget]) rfl rfl).1.mpr
    (by
      show monthlyTotal 1 wFood.id wDate.month wDate.year
          (wState [wExpense 90] [wBudget 100 90]) / (wBudget 100 90).amount * 100 ≥
          (wBudget 100 90).alert_threshold
      simp only [monthlyTotal, sqlSum, wState, wExpense, wFood, wDate, wBudget,
        expenseMatches, List.filter, List.map]
      norm_num)

theorem find?_append_singleton {α : Type} {p : α → Bool} {l : List α} {a : α}
    (ha : p a = true) : ∃ x, List.find? p (l ++ [a]) = some x := by
  induction l with
  | nil => exact ⟨a, List.find?_cons_of_pos [] ha⟩
  | cons y ys ih =>
    by_cases hy : p y = true
    · exact ⟨y, List.find?_cons_of_pos (ys ++ [a]) hy⟩
    · obtain ⟨x, hx⟩ := ih
      exact ⟨x, by rw [List.cons_append, List.find?_cons_of_neg (ys ++ [a]) hy]; exact hx⟩

/-- C2: an alert is created only when no unread alert for the (user,
category) pair exists (regardless of period), and evaluation is idempotent:
whatever one call did, an immediate second call with unchanged expenses
returns `None` and adds nothing, so two successive calls persist at most one
alert in total. -/
theorem alert_dedup_idempotent (sinkOk : Bool) (today : Date) (uid cid : Nat)
    (s : State) (c : Category)
    (hc : findCategory cid s = some c) :
    (∀ a, findUnreadAlert uid c.id s = some a →
      check_budget_alerts sinkOk today uid (some cid) s = some (none, s)) ∧
    (∀ r1 s1, check_budget_alerts sinkOk today uid (some cid) s = some (r1, s1) →
      check_budget_alerts sinkOk today uid (some cid) s1 = some (none, s1) ∧
      s1.alerts.length ≤ s.alerts.length + 1) := by
  have hstep : ∀ t : State, check_budget_alerts sinkOk today uid (some cid) t =
      match findCategory cid t with
      | none => none
      | some c => checkCategories sinkOk today uid [c] t := fun _ => rfl
  constructor
  · intro a hal
    rw [hstep s, hc]
    unfold checkCategories
    rw [evalCategory_of_unread hal]
    rfl
  · intro r1 s1 h
    rw [hstep s, hc] at h
    obtain ⟨_, hcats, _, _, hdisj⟩ := checkCategories_frame h
    have hc1 : findCategory cid s1 = some c := by
      unfold findCategory
      rw [hcats]
      exact hc
    rcases hdisj with ⟨hr, hs⟩ | ⟨a, hr, hal, hread, hauid, c', hc', hacid⟩
    · subst hs
      subst hr
      refine ⟨?_, Nat.le_succ _⟩
      rw [hstep s1, hc1]
      exact h
    · have hcid2 : a.category_id = c.id := by
        rw [hacid, List.mem_singleton.mp hc']
      have hpa : (fun a : Alert =>
          a.user_id == uid && a.category_id == c.id && a.is_read == false) a = true := by
        simp [hauid, hcid2, hread]
      obtain ⟨x, hx⟩ : ∃ x, findUnreadAlert uid c.id s1 = some x := by
        unfold findUnreadAlert
        rw [hal]
        exact find?_append_singleton hpa
      constructor
      · rw [hstep s1, hc1]
        unfold checkCategories
        rw [evalCategory_of_unread hx]
        rfl
      · rw [hal, List.length_append]
        simp

/-- An unread alert already on file for (user 1, category 1). -/
def wAlert : Alert :=
  { id := 1, user_id := 1, category_id := 1, message := "old alert", created_at := 0,
    is_read := false }

/-- A state that already holds one unread alert for (user 1, category 1),
with spending far over budget. -/
def wStateAlert : State :=
  { users := [wUser], categories := [wFood], expenses := [wExpense 500],
    budgets := [wBudget 100 90], alerts := [wAlert], nextAlertId := 2, nextBudgetId := 2,
    sent := [] }

/-- Witness for C2: with an unread alert on file, evaluation returns `None`
and adds nothing even though spending is far over budget. -/
theorem alert_dedup_idempotent_witness :
    check_budget_alerts true wDate 1 (some 1) wStateAlert = some (none, wStateAlert) :=
  (alert_dedup_idempotent true wDate 1 1 wStateAlert wFood rfl).1 wAlert rfl

/-- C3: when a new alert fires, the Alert row is persisted and returned
whatever the notification sink does: the sink is invoked only when the
user's `notifications_enabled` flag is set, a sink failure raises nothing
to the caller (the result is still `some`), and it neither prevents nor
rolls back the persisted alert — the returned alert and the alerts table
are the same for a failing and a succeeding sink. -/
theorem alert_persisted_sink_swallowed (today : Date) (uid cid : Nat) (s : State)
    (c : Category) (b : Budget) (u : User)
    (hc : findCategory cid s = some c)
    (hb : findBudget uid c.id today.month today.year s = some b)
    (h0 : b.amount > 0)
    (hth : monthlyTotal uid c.id today.month today.year s / b.amount * 100 ≥
      b.alert_threshold)
    (hal : findUnreadAlert uid c.id s = none)
    (hu : findUser uid s = some u) :
    ∃ a : Alert, a.is_read = false ∧ ∀ sinkOk : Bool, ∃ s',
      check_budget_alerts sinkOk today uid (some cid) s = some (some a, s') ∧
      s'.alerts = s.alerts ++ [a] ∧
      s'.sent = (if u.notifications_enabled && sinkOk then
        s.sent ++ [(u.email, a.message)] else s.sent) := by
  refine ⟨newAlert uid c b today s, rfl, ?_⟩
  intro sinkOk
  refine ⟨afterCreate sinkOk uid c b today s u, ?_, ?_, ?_⟩
  · have hstep : check_budget_alerts sinkOk today uid (some cid) s =
        match findCategory cid s with
        | none => none
        | some c => checkCategories sinkOk today uid [c] s := rfl
    rw [hstep, hc]
    unfold checkCategories
    rw [evalCategory_creates hb h0 hth hal hu]
  · unfold afterCreate
    cases hn : u.notifications_enabled <;> cases sinkOk <;>
      simp [send_email_notification]
  · unfold afterCreate
    cases hn : u.notifications_enabled <;> cases sinkOk <;>
      simp [send_email_notification, hn, newAlert]

/-- Witness for C3 at budget 100, threshold 90, spent 95. -/
theorem alert_persisted_sink_swallowed_witness :
    ∃ a : Alert, a.is_read = false ∧ ∀ sinkOk : Bool, ∃ s',
      check_budget_alerts sinkOk wDate 1 (some 1) (wState [wExpense 95] [wBudget 100 90]) =
        some (some a, s') ∧
      s'.alerts = (wState [wExpense 95] [wBudget 100 90]).alerts ++ [a] ∧
      s'.sent = (if wUser.notifications_enabled && sinkOk then
        (wState [wExpense 95] [wBudget 100 90]).sent ++ [(wUser.email, a.message)]
        else (wState [wExpense 95] [wBudget 100 90]).sent) :=
  alert_persisted_sink_swallowed wDate 1 1 (wState [wExpense 95] [wBudget 100 90])
    wFood (wBudget 100 90) wUser rfl rfl (by norm_num [wBudget])
    (by
      show monthlyTotal 1 wFood.id wDate.month wDate.year
          (wState [wExpense 95] [wBudget 100 90]) / (wBudget 100 90).amount * 100 ≥
          (wBudget 100 90).alert_threshold
      simp only [monthlyTotal, sqlSum, wState, wExpense, wFood, wDate, wBudget,
        expenseMatches, List.filter, List.map]
      norm_num)
    rfl rfl

theorem mem_updateFirst {α : Type} {p : α → Bool} {f : α → α} {l : List α} {z : α}
    (hz : z ∈ updateFirst p f l) : z ∈ l ∨ ∃ y ∈ l, z = f y := by
  induction l with
  | nil => simp [updateFirst] at hz
  | cons x xs ih =>
    unfold updateFirst at hz
    by_cases hp : p x = true
    · rw [if_pos hp] at hz
      rcases List.mem_cons.mp hz with rfl | hz'
      · exact Or.inr ⟨x, List.mem_cons_self x xs, rfl⟩
      · exact Or.inl (List.mem_cons_of_mem x hz')
    · rw [if_neg hp] at hz
      rcases List.mem_cons.mp hz with rfl | hz'
      · exact Or.inl (List.mem_cons_self z xs)
      · rcases ih hz' with h | ⟨y, hy, rfl⟩
        · exact Or.inl (List.mem_cons_of_mem x h)
        · exact Or.inr ⟨y, List.mem_cons_of_mem x hy, rfl⟩

theorem length_updateFirst {α : Type} (p : α → Bool) (f : α → α) (l : List α) :
    (updateFirst p f l).length = l.length := by
  induction l with
  | nil => rfl
  | cons x xs ih =>
    unfold updateFirst
    by_cases hp : p x = true
    · rw [if_pos hp]; rfl
    · rw [if_neg hp]
      simpa using ih

theorem pairwise_updateFirst {α : Type} {R : α → α → Prop} {p : α → Bool} {f : α → α}
    (hfr : ∀ x y, R x y → R (f x) y) (hfl : ∀ x y, R x y → R x (f y))
    {l : List α} (h : l.Pairwise R) : (updateFirst p f l).Pairwise R := by
  induction l with
  | nil => exact List.Pairwise.nil
  | cons x xs ih =>
    obtain ⟨hx, hxs⟩ := List.pairwise_cons.mp h
    unfold updateFirst
    by_cases hp : p x = true
    · rw [if_pos hp]
      exact List.pairwise_cons.mpr ⟨fun y hy => hfr x y (hx y hy), hxs⟩
    · rw [if_neg hp]
      refine List.pairwise_cons.mpr ⟨?_, ih hxs⟩
      intro z hz
      rcases mem_updateFirst hz with hz' | ⟨y, hy, rfl⟩
      · exact hx z hz'
      · exact hfl x y (hx y hy)

theorem upsertBudget_preserves_unique (uid cid : Nat) (amount : ℚ) (month year : Nat)
    (thr : Option ℚ) (s : State) (h : BudgetsUnique s) :
    BudgetsUnique (upsertBudget uid cid amount month year thr s) := by
  unfold upsertBudget
  cases hf : s.budgets.find? (budgetKeyMatches uid cid month year) with
  | some b =>
    refine pairwise_updateFirst ?_ ?_ h
    · exact fun x y hxy => hxy
    · exact fun x y hxy => hxy
  | none =>
    show List.Pairwise _ (s.budgets ++ [_])
    rw [List.pairwise_append]
    refine ⟨h, by simp, ?_⟩
    intro a ha b' hb'
    obtain rfl := List.mem_singleton.mp hb'
    have hna := List.find?_eq_none.mp hf a ha
    simpa [budgetKeyMatches] using hna

/-- C7: submitting a budget for an existing (user, category, month, year)
key updates that row in place, adding no row; submitting for a fresh key
appends exactly one row holding that key; and key-uniqueness of the budget
table is preserved by every sequence of submissions. -/
theorem budget_upsert_unique (subs : List Submission) (s : State) (h : BudgetsUnique s) :
    BudgetsUnique (applySubmissions subs s) ∧
    (∀ uid cid (amount : ℚ) month year thr (t : State) b,
      t.budgets.find? (budgetKeyMatches uid cid month year) = some b →
        (upsertBudget uid cid amount month year thr t).budgets.length =
          t.budgets.length) ∧
    (∀ uid cid (amount : ℚ) month year thr (t : State),
      t.budgets.find? (budgetKeyMatches uid cid month year) = none →
        ∃ nb, (upsertBudget uid cid amount month year thr t).budgets =
          t.budgets ++ [nb] ∧ budgetKeyMatches uid cid month year nb = true) := by
  refine ⟨?_, ?_, ?_⟩
  · induction subs generalizing s with
    | nil => exact h
    | cons sub rest ih =>
      exact ih _ (upsertBudget_preserves_unique sub.uid sub.cid sub.amount sub.month
        sub.year sub.alert_threshold s h)
  · intro uid cid amount month year thr t b hf
    unfold upsertBudget
    rw [hf]
    exact length_updateFirst _ _ _
  · intro uid cid amount month year thr t hf
    unfold upsertBudget
    rw [hf]
    exact ⟨_, rfl, by simp [budgetKeyMatches]⟩

/-- Two submissions for the same key (the second without a threshold field). -/
def wSubs : List Submission :=
  [{ uid := 1, cid := 1, amount := 100, month := 6, year := 2024, alert_threshold := some 80 },
   { uid := 1, cid := 1, amount := 250, month := 6, year := 2024, alert_threshold := none }]

/-- Witness for C7: after two submissions for the same key the table is
still duplicate-free. -/
theorem budget_upsert_unique_witness :
    BudgetsUnique (applySubmissions wSubs (wState [] [])) :=
  (budget_upsert_unique wSubs (wState [] []) List.Pairwise.nil).1

/-- C9: a budget submitted without an alert-threshold field is created with
`alert_threshold = 90` (both handlers default the missing field to 90). -/
theorem budget_default_threshold (uid cid : Nat) (amount : ℚ) (month year : Nat)
    (s : State)
    (h : s.budgets.find? (budgetKeyMatches uid cid month year) = none) :
    ∃ nb, (upsertBudget uid cid amount month year none s).budgets =
      s.budgets ++ [nb] ∧ nb.alert_threshold = 90 := by
  unfold upsertBudget
  rw [h]
  exact ⟨_, rfl, rfl⟩

/-- Witness for C9 on an empty budget table. -/
theorem budget_default_threshold_witness :
    ∃ nb, (upsertBudget 1 1 100 6 2024 none (wState [] [])).budgets =
      (wState [] []).budgets ++ [nb] ∧ nb.alert_threshold = 90 :=
  budget_default_threshold 1 1 100 6 2024 (wState [] []) rfl

/-- Counterexample to C8 as stated: with budget 100 and spent 150 the
report's `remaining` is `-50`, not `max(budget - spent, 0) = 0` — the code
computes `budget_amount - total` with no clamping at zero. -/
theorem report_remaining_counterexample :
    (categoryReportEntry 1 6 2024 wFood (wState [wExpense 150] [wBudget 100 90])).remaining ≠
      remainingSpec
        (categoryReportEntry 1 6 2024 wFood (wState [wExpense 150] [wBudget 100 90])).budget
        (categoryReportEntry 1 6 2024 wFood (wState [wExpense 150] [wBudget 100 90])).spent := by
  have hspent : (categoryReportEntry 1 6 2024 wFood
      (wState [wExpense 150] [wBudget 100 90])).spent = 150 := by
    simp only [categoryReportEntry, monthlyTotal, sqlSum, wState, wExpense, wFood,
      expenseMatches, List.filter, List.map]
    norm_num
  have hbudget : (categoryReportEntry 1 6 2024 wFood
      (wState [wExpense 150] [wBudget 100 90])).budget = 100 := by
    simp only [categoryReportEntry, findBudget, wState, wBudget, wFood, List.find?]
    norm_num
  have hrem : (categoryReportEntry 1 6 2024 wFood
      (wState [wExpense 150] [wBudget 100 90])).remaining = -50 := by
    simp only [categoryReportEntry, monthlyTotal, sqlSum, findBudget, wState, wExpense,
      wBudget, wFood, expenseMatches, List.filter, List.map, List.find?]
    norm_num
  rw [hrem, hspent, hbudget, remainingSpec]
  rw [if_pos (by norm_num : (100 : ℚ) > 0), max_eq_right (by norm_num : (100 : ℚ) - 150 ≤ 0)]
  norm_num

/-- C8 amended: the report's `remaining` is `budget - spent` (which may be
negative) when the budget amount is strictly positive, and `0` when the
budget amount is not strictly positive or no budget row exists. -/
theorem report_remaining_amended (uid month year : Nat) (c : Category) (s : State) :
    (∀ b, findBudget uid c.id month year s = some b → b.amount > 0 →
      (categoryReportEntry uid month year c s).remaining =
        b.amount - monthlyTotal uid c.id month year s) ∧
    (∀ b, findBudget uid c.id month year s = some b → ¬ b.amount > 0 →
      (categoryReportEntry uid month year c s).remaining = 0) ∧
    (findBudget uid c.id month year s = none →
      (categoryReportEntry uid month year c s).remaining = 0) := by
  refine ⟨?_, ?_, ?_⟩
  · intro b hb h0
    unfold categoryReportEntry
    rw [hb]
    simp only [if_pos h0]
  · intro b hb h0
    unfold categoryReportEntry
    rw [hb]
    simp only [if_neg h0]
  · intro hb
    unfold categoryReportEntry
    rw [hb]
    norm_num

/-- Witness for the amended C8 at budget 100, spent 150. -/
theorem report_remaining_amended_witness :
    (categoryReportEntry 1 6 2024 wFood (wState [wExpense 150] [wBudget 100 90])).remaining =
      (wBudget 100 90).amount -
        monthlyTotal 1 wFood.id 6 2024 (wState [wExpense 150] [wBudget 100 90]) :=
  (report_remaining_amended 1 6 2024 wFood (wState [wExpense 150] [wBudget 100 90])).1
    (wBudget 100 90) rfl (by norm_num [wBudget])

end FinanceTracker
